import Mathlib

/-!
Shallow embedding of the crypto alert bot in `src/main.py`.

The script fetches market data from CoinGecko, detects breakout/breakdown
patterns against a fixed ±5% threshold, and pushes Telegram messages.
Network effects are modelled by passing the transport outcome in as data;
floats (`price_change_percentage_24h`, prices) are modelled as rationals;
a Python exception escaping a block is modelled with `Except`.
-/

/-- Model of Python `str.lower()` (character-wise lowercasing). -/
def strLower (s : String) : String := ⟨s.data.map Char.toLower⟩

/-- Model of Python `str.upper()` (character-wise uppercasing). -/
def strUpper (s : String) : String := ⟨s.data.map Char.toUpper⟩

/-- Model of Python `str.capitalize()`: first character uppercased, rest lowercased. -/
def strCapitalize (s : String) : String :=
  match s.data with
  | [] => ""
  | c :: cs => ⟨c.toUpper :: cs.map Char.toLower⟩

/-- Two-digit zero-padded decimal rendering of a natural number below 100. -/
def pad2 (n : ℕ) : String := (if n < 10 then "0" else "") ++ toString n

/-- Model of Python `f"{x:.2f}"`: the value rounded to two decimal places with a
leading minus sign when negative.  The hundredths count is
`⌊|q| * 100 + 1/2⌋`, computed directly on the numerator and denominator.
(Python rounds the underlying binary float half-to-even; this rounds the exact
rational half-up, which agrees on every input the claims exercise.) -/
def fmt2 (q : ℚ) : String :=
  let n : ℕ := (q.num.natAbs * 200 + q.den) / (2 * q.den)
  (if q < 0 then "-" else "") ++ toString (n / 100) ++ "." ++ pad2 (n % 100)

/-- A well-formed market snapshot as consumed by `detect_patterns`
(`main.py` lines 68-73): the fields the code reads. -/
structure Crypto where
  symbol : String
  price_change_percentage_24h : ℚ
deriving DecidableEq

/-- A raw provider record: an entry is `none` when the JSON field is missing
or `null`.  `detect_patterns` reads `price_change_percentage_24h` for every
record (a missing/null value raises KeyError / TypeError at the comparison),
and reads `symbol` only inside the two alert branches, so a missing `symbol`
key raises KeyError exactly for out-of-band records. -/
structure RawCrypto where
  symbol : Option String
  price_change_percentage_24h : Option ℚ
deriving DecidableEq

/-- Injection of a well-formed snapshot into raw provider records. -/
def Crypto.toRaw (c : Crypto) : RawCrypto :=
  ⟨some c.symbol, some c.price_change_percentage_24h⟩

/-- The breakout alert string built at `main.py` line 71. -/
def breakoutLine (c : Crypto) : String :=
  "🚀 **" ++ strUpper c.symbol ++ "** is breaking out! (+" ++
    fmt2 c.price_change_percentage_24h ++ "%)"

/-- The breakdown alert string built at `main.py` line 73. -/
def breakdownLine (c : Crypto) : String :=
  "🔻 **" ++ strUpper c.symbol ++ "** is breaking down! (" ++
    fmt2 c.price_change_percentage_24h ++ "%)"

/-- `detect_patterns` (`main.py` lines 66-74) on well-formed snapshots:
appends a breakout line when the 24h change exceeds 5, a breakdown line when
it is below -5, nothing otherwise, preserving input order. -/
def detect_patterns : List Crypto → List String
  | [] => []
  | c :: rest =>
    if c.price_change_percentage_24h > 5 then breakoutLine c :: detect_patterns rest
    else if c.price_change_percentage_24h < -5 then breakdownLine c :: detect_patterns rest
    else detect_patterns rest

/-- `detect_patterns` on raw provider records.  A record whose change field is
missing or null makes the loop raise (`crypto["price_change_percentage_24h"]`
KeyError, or TypeError on comparing `None` with `int`); a record taking one of
the two alert branches with no `symbol` key raises KeyError at the f-string
(`main.py` lines 71/73).  An exception discards any alerts already
accumulated; this is modelled with `Except.error`.  Records are processed
left to right, head before tail, as the Python loop does. -/
def detect_patterns_raw : List RawCrypto → Except String (List String)
  | [] => .ok []
  | c :: rest =>
    match c.price_change_percentage_24h with
    | none => .error "TypeError: comparison not supported between NoneType and int"
    | some p =>
      if p > 5 then
        match c.symbol with
        | none => .error "KeyError: symbol"
        | some s =>
          match detect_patterns_raw rest with
          | .error e => .error e
          | .ok alerts => .ok (breakoutLine ⟨s, p⟩ :: alerts)
      else if p < -5 then
        match c.symbol with
        | none => .error "KeyError: symbol"
        | some s =>
          match detect_patterns_raw rest with
          | .error e => .error e
          | .ok alerts => .ok (breakdownLine ⟨s, p⟩ :: alerts)
      else
        detect_patterns_raw rest

/-- Outcome of the HTTP GET inside `fetch_crypto_data`: a 2xx response with a
decoded JSON body, a non-success status (`raise_for_status` raises), or a
network-level failure (`requests.exceptions.RequestException`). -/
inductive HttpResult where
  | ok (body : List RawCrypto)
  | httpError (status : ℕ)
  | networkFailure (cause : String)
deriving DecidableEq

/-- `fetch_crypto_data` (`main.py` lines 47-63): returns the decoded body on
success; on a non-success status or a network failure the exception is caught,
logged, and the function returns the empty list. -/
def fetch_crypto_data : HttpResult → List RawCrypto
  | .ok body => body
  | .httpError _ => []
  | .networkFailure _ => []

/-- Model of Python `"\n".join(alerts)`. -/
def joinNL : List String → String
  | [] => ""
  | [a] => a
  | a :: b :: rest => a ++ "\n" ++ joinNL (b :: rest)

/-- The non-empty alert message built at `main.py` line 93: a header followed
by a blank line, then the alert lines joined with newlines. -/
def alertMessage (alerts : List String) : String :=
  "🔔 **Crypto Alerts** 🔔\n\n" ++ joinNL alerts

/-- Telegram chat ids and owner id from the configuration (`main.py` lines 23-41). -/
structure Config where
  chat_id : ℤ
  owner_id : ℤ
deriving DecidableEq

/-- `run_bot` (`main.py` lines 87-99) as the list of `(chat_id, text)` sends it
performs.  `if data:` skips everything when the fetched list is empty; an
exception raised inside the body (only the detector can raise, since both
`fetch_crypto_data` and `send_telegram_message` catch their own errors) lands
in the `except` clause, which messages the owner. -/
def run_bot (cfg : Config) (chat_id : ℤ) (resp : HttpResult) : List (ℤ × String) :=
  let data := fetch_crypto_data resp
  if data.isEmpty then []
  else
    match detect_patterns_raw data with
    | .error e => [(cfg.owner_id, "⚠️ **Error in run_bot:** " ++ e)]
    | .ok alerts =>
      if alerts.isEmpty then [(chat_id, "No alerts found.")]
      else [(chat_id, alertMessage alerts)]

/-- `uptime_command` (`main.py` lines 120-126) as a function of the elapsed
whole seconds since process start. -/
def uptime_command (t : ℕ) : String :=
  let uptime_hours := t / 3600
  let uptime_minutes := (t % 3600) / 60
  let uptime_seconds := t % 60
  "⏰ Uptime: " ++ toString uptime_hours ++ "h " ++ toString uptime_minutes ++
    "m " ++ toString uptime_seconds ++ "s"

/-- Outcome of the single-asset price request inside `price`: a decoded JSON
object mapping asset ids to their usd price (`none` models an id absent from
the response), or a transport failure (non-2xx status or network error). -/
inductive PriceResp where
  | ok (lookup : String → Option ℚ)
  | failure (cause : String)

/-- What a run of the `price` handler did: the asset id embedded in the
request URL (`none` when no network call was made) and the reply text. -/
structure PriceOutcome where
  queried : Option String
  reply : String
deriving DecidableEq

/-- `price` (`main.py` lines 129-152): lowercases the first argument, replies
with a usage hint (and no network call) when there is none, otherwise queries
the single-asset endpoint with the lowercased id and replies with the price,
a not-found message, or an error message on transport failure. -/
def price (args : List String) (resp : PriceResp) : PriceOutcome :=
  let crypto_name := match args with
    | [] => ""
    | a :: _ => strLower a
  if crypto_name = "" then
    ⟨none, "Please specify a cryptocurrency. Example: /price bitcoin"⟩
  else
    match resp with
    | .failure _ =>
      ⟨some crypto_name, "⚠️ An error occurred while fetching the price. Please try again later."⟩
    | .ok lookup =>
      match lookup crypto_name with
      | some p =>
        ⟨some crypto_name, "💰 The current price of " ++ strCapitalize crypto_name ++
          " is " ++ fmt2 p ++ " USDT."⟩
      | none =>
        ⟨some crypto_name, "❌ Could not find data for " ++ strCapitalize crypto_name ++ "."⟩

/-- Number of newline characters in a string. -/
def nlCount (s : String) : ℕ := (s.data.filter (fun c => c = '\n')).length

/-- Number of lines of a string: newline characters plus one. -/
def countLines (s : String) : ℕ := nlCount s + 1

/-- A concrete provider response for the single-asset price endpoint, used to
exercise the `price` handler at a concrete input. -/
def demoLookup (n : String) : Option ℚ :=
  if n = "bitcoin" then some 64214 else none

/-! ## Helper lemmas -/

/-- String concatenation acts as list concatenation on the underlying data. -/
theorem strData_append (a b : String) : (a ++ b).data = a.data ++ b.data := rfl

/-- The detector distributes over list concatenation (it processes snapshots
independently, in order). -/
theorem detect_patterns_append (l1 l2 : List Crypto) :
    detect_patterns (l1 ++ l2) = detect_patterns l1 ++ detect_patterns l2 := by
  induction l1 with
  | nil => rfl
  | cons c rest ih =>
    simp only [List.cons_append, detect_patterns]
    split_ifs <;> simp [ih]

/-- Lowercasing a nonempty string yields a nonempty string. -/
theorem strLower_ne_empty (a : String) (ha : a ≠ "") : strLower a ≠ "" := by
  intro h
  apply ha
  have hdata : a.data.map Char.toLower = [] := congrArg String.data h
  have : a.data = [] := List.map_eq_nil_iff.mp hdata
  cases a
  simp_all

/-- Newline counting distributes over string concatenation. -/
theorem nlCount_append (a b : String) : nlCount (a ++ b) = nlCount a + nlCount b := by
  simp [nlCount, strData_append, List.filter_append]

/-- A string without newline characters has newline count zero. -/
theorem nlCount_eq_zero (a : String) (h : ('\n' : Char) ∉ a.data) : nlCount a = 0 := by
  simp only [nlCount, List.length_eq_zero]
  apply List.filter_eq_nil_iff.mpr
  intro c hc
  simp only [decide_eq_true_eq]
  intro hceq
  exact h (hceq ▸ hc)

/-- Newline count of a newline-join of newline-free lines: one newline fewer
than the number of lines. -/
theorem newline_count_joinNL (alerts : List String) (hne : alerts ≠ [])
    (hnl : ∀ a ∈ alerts, ('\n' : Char) ∉ a.data) :
    nlCount (joinNL alerts) + 1 = alerts.length := by
  induction alerts with
  | nil => exact absurd rfl hne
  | cons a rest ih =>
    cases rest with
    | nil =>
      simp only [joinNL, List.length_cons, List.length_nil]
      rw [nlCount_eq_zero a (hnl a (by simp))]
    | cons b rest2 =>
      have hrest : ∀ x ∈ b :: rest2, ('\n' : Char) ∉ x.data := by
        intro x hx
        exact hnl x (List.mem_cons_of_mem a hx)
      have ihr := ih (by simp) hrest
      show nlCount (a ++ "\n" ++ joinNL (b :: rest2)) + 1 = _
      rw [nlCount_append, nlCount_append, nlCount_eq_zero a (hnl a (by simp))]
      have hone : nlCount "\n" = 1 := by decide
      rw [hone]
      simp only [List.length_cons] at ihr ⊢
      omega

/-- The uppercased symbol occurs verbatim, as a contiguous character run, in
the breakout line built from a snapshot. -/
theorem breakout_infix (c : Crypto) :
    List.IsInfix (strUpper c.symbol).data (breakoutLine c).data := by
  refine ⟨"🚀 **".data,
    ("** is breaking out! (+" ++ fmt2 c.price_change_percentage_24h ++ "%)").data, ?_⟩
  simp [breakoutLine, strData_append, List.append_assoc]

/-- The uppercased symbol occurs verbatim, as a contiguous character run, in
the breakdown line built from a snapshot. -/
theorem breakdown_infix (c : Crypto) :
    List.IsInfix (strUpper c.symbol).data (breakdownLine c).data := by
  refine ⟨"🔻 **".data,
    ("** is breaking down! (" ++ fmt2 c.price_change_percentage_24h ++ "%)").data, ?_⟩
  simp [breakdownLine, strData_append, List.append_assoc]

/-! ## Claims -/

/-- C1 counterexample: the fetch operation does not fail distinguishably on a
non-success transport status; a 503 produces exactly the same result as a
successful fetch with zero records, namely the empty list. -/
theorem C1_counterexample :
    fetch_crypto_data (HttpResult.httpError 503) = fetch_crypto_data (HttpResult.ok [])
    ∧ fetch_crypto_data (HttpResult.httpError 503) = [] :=
  ⟨rfl, rfl⟩

/-- C1 amended: on a non-success transport status or a network failure,
`fetch_crypto_data` swallows the exception, logs, and returns the empty
list — the very value a successful fetch with zero results returns, so the
caller cannot distinguish the two. -/
theorem C1_amended : ∀ (status : ℕ) (cause : String),
    fetch_crypto_data (HttpResult.httpError status) = []
    ∧ fetch_crypto_data (HttpResult.networkFailure cause) = []
    ∧ fetch_crypto_data (HttpResult.ok []) = [] :=
  fun _ _ => ⟨rfl, rfl, rfl⟩

/-- C2 counterexample: when the provider returns status 503, the alert cycle
performs zero notify calls (in particular, the operator destination is never
messaged with a diagnostic containing "503"), because `fetch_crypto_data`
swallows the error and returns `[]`, and `run_bot` then silently does
nothing. -/
theorem C2_counterexample :
    run_bot ⟨7, 99⟩ 7 (HttpResult.httpError 503) = [] :=
  rfl

/-- C2 amended: when the fetch step fails (non-success status or network
failure), `run_bot` sends no message at all — neither to the triggering chat
nor to the operator — and never reaches the detector, because the fetch
failure is converted to an empty list which the `if data:` guard skips. -/
theorem C2_amended : ∀ (cfg : Config) (chat : ℤ) (status : ℕ) (cause : String),
    run_bot cfg chat (HttpResult.httpError status) = []
    ∧ run_bot cfg chat (HttpResult.networkFailure cause) = [] :=
  fun _ _ _ _ => ⟨rfl, rfl⟩

/-- C3 counterexample: a successful fetch with an empty snapshot list makes
the cycle send nothing at all — the fixed "No alerts found." message is not
sent, because the `if data:` guard skips the whole body on an empty list. -/
theorem C3_counterexample :
    run_bot ⟨7, 99⟩ 5 (HttpResult.ok []) = [] :=
  rfl

/-- C3 amended: on a successful fetch with an empty snapshot list `run_bot`
sends nothing; the fixed "No alerts found." string is sent exactly once, to
the triggering chat, precisely when the fetch yields a non-empty snapshot
list on which the detector produces no alerts. -/
theorem C3_amended : ∀ (cfg : Config) (chat : ℤ),
    run_bot cfg chat (HttpResult.ok []) = []
    ∧ ∀ (data : List RawCrypto), data ≠ [] →
        detect_patterns_raw data = Except.ok [] →
        run_bot cfg chat (HttpResult.ok data) = [(chat, "No alerts found.")] := by
  intro cfg chat
  refine ⟨rfl, ?_⟩
  intro data hne hdet
  simp only [run_bot, fetch_crypto_data]
  rw [if_neg (by simp [List.isEmpty_iff, hne]), hdet]
  rfl

/-- C3 witness: the amended claim at concrete inputs — empty fetch success
sends nothing; a one-record fetch with an in-band change sends exactly the
"No alerts found." message to the triggering chat. -/
theorem C3_witness :
    run_bot ⟨1, 2⟩ 1 (HttpResult.ok []) = []
    ∧ run_bot ⟨1, 2⟩ 1 (HttpResult.ok [⟨some "btc", some 1⟩]) = [(1, "No alerts found.")] :=
  ⟨(C3_amended ⟨1, 2⟩ 1).1,
   (C3_amended ⟨1, 2⟩ 1).2 [⟨some "btc", some 1⟩] (by simp) rfl⟩

/-- C4: a snapshot with 24h change strictly above 5 yields exactly one
breakout event, one with change strictly below -5 yields exactly one
breakdown event, and one with change in the closed interval [-5, 5]
(including exactly 5 and exactly -5) yields no event; the detector processes
a concatenation of snapshot lists as the concatenation of its outputs, so
this per-snapshot rule determines the whole batch. -/
theorem C4_spec : ∀ (c : Crypto) (l1 l2 : List Crypto),
    (c.price_change_percentage_24h > 5 → detect_patterns [c] = [breakoutLine c])
    ∧ (c.price_change_percentage_24h < -5 → detect_patterns [c] = [breakdownLine c])
    ∧ (-5 ≤ c.price_change_percentage_24h → c.price_change_percentage_24h ≤ 5 →
        detect_patterns [c] = [])
    ∧ detect_patterns (l1 ++ l2) = detect_patterns l1 ++ detect_patterns l2 := by
  intro c l1 l2
  refine ⟨?_, ?_, ?_, detect_patterns_append l1 l2⟩
  · intro h
    simp [detect_patterns, h]
  · intro h
    have hnot : ¬ c.price_change_percentage_24h > 5 := by linarith
    simp [detect_patterns, hnot, h]
  · intro h1 h2
    have ha : ¬ c.price_change_percentage_24h > 5 := not_lt.mpr h2
    have hb : ¬ c.price_change_percentage_24h < -5 := not_lt.mpr h1
    simp [detect_patterns, ha, hb]

/-- C4 witness: the threshold rule evaluated at concrete snapshots — change 6
gives one breakout, change -7 gives one breakdown, and the boundary changes
exactly 5 and exactly -5 give no event. -/
theorem C4_witness :
    detect_patterns [⟨"btc", 6⟩] = [breakoutLine ⟨"btc", 6⟩]
    ∧ detect_patterns [⟨"eth", -7⟩] = [breakdownLine ⟨"eth", -7⟩]
    ∧ detect_patterns [⟨"ada", 5⟩] = []
    ∧ detect_patterns [⟨"sol", -5⟩] = [] :=
  ⟨(C4_spec ⟨"btc", 6⟩ [] []).1 (by norm_num),
   (C4_spec ⟨"eth", -7⟩ [] []).2.1 (by norm_num),
   (C4_spec ⟨"ada", 5⟩ [] []).2.2.1 (by norm_num) (by norm_num),
   (C4_spec ⟨"sol", -5⟩ [] []).2.2.1 (by norm_num) (by norm_num)⟩

/-- C5 counterexample: the detector is not total on malformed records — a
record carrying a null change value raises at the comparison, and a record
with a numeric out-of-band change but no symbol key raises at the f-string,
so in both cases the run fails instead of returning a batch. -/
theorem C5_counterexample :
    (detect_patterns_raw [⟨some "btc", none⟩]).isOk = false
    ∧ (detect_patterns_raw [⟨none, some 7⟩]).isOk = false :=
  ⟨rfl, rfl⟩

/-- C5 amended: the detector is pure and deterministic, and it is total on
every snapshot list whose records all carry a numeric change value and a
symbol: such a list always produces a batch (no failure), and on well-formed
snapshots the raw run agrees with the pure detector; a record with a missing
or null change value, or an out-of-band record with a missing symbol,
however, makes it raise. -/
theorem C5_amended : ∀ (raw : List RawCrypto) (l : List Crypto),
    ((∀ c ∈ raw, c.price_change_percentage_24h ≠ none ∧ c.symbol ≠ none) →
      (detect_patterns_raw raw).isOk = true)
    ∧ detect_patterns_raw (l.map Crypto.toRaw) = Except.ok (detect_patterns l) := by
  intro raw l
  constructor
  · intro hall
    induction raw with
    | nil => rfl
    | cons c rest ih =>
      obtain ⟨hc, hs⟩ := hall c (by simp)
      have hrest : ∀ x ∈ rest, x.price_change_percentage_24h ≠ none ∧ x.symbol ≠ none := by
        intro x hx
        exact hall x (List.mem_cons_of_mem c hx)
      have ihr := ih hrest
      rcases hp : c.price_change_percentage_24h with _ | p
      · exact absurd hp hc
      rcases hsym : c.symbol with _ | s
      · exact absurd hsym hs
      simp only [detect_patterns_raw, hp, hsym]
      rcases hr : detect_patterns_raw rest with e | alerts
      · rw [hr] at ihr
        simp [Except.isOk, Except.toBool] at ihr
      · split_ifs <;> rfl
  · induction l with
    | nil => rfl
    | cons c rest ih =>
      simp only [List.map_cons, detect_patterns_raw, Crypto.toRaw, ih, detect_patterns]
      split_ifs <;> rfl

/-- C5 witness: the amended claim at a concrete input — a one-record list
with a present numeric change value and a present symbol runs to a
successful batch. -/
theorem C5_witness : (detect_patterns_raw [⟨some "btc", some 2⟩]).isOk = true :=
  (C5_amended [⟨some "btc", some 2⟩] []).1 (by decide)

/-- C6 counterexample: for a batch with one event the notification has three
lines, not the two (events + 1) the claim predicts, because the header is
followed by a blank separator line (`"\n\n"` in the message template). -/
theorem C6_counterexample :
    countLines (alertMessage [breakoutLine ⟨"btc", 6⟩]) = 3
    ∧ ¬ countLines (alertMessage [breakoutLine ⟨"btc", 6⟩]) =
        [breakoutLine ⟨"btc", 6⟩].length + 1 :=
  ⟨by decide, by decide⟩

/-- C6 amended: for every non-empty alert batch whose event lines contain no
newline character, the formatted notification has the number of events plus
two lines: the header line, a blank separator line, and one line per event. -/
theorem C6_amended : ∀ (alerts : List String), alerts ≠ [] →
    (∀ a ∈ alerts, ('\n' : Char) ∉ a.data) →
    countLines (alertMessage alerts) = alerts.length + 2 := by
  intro alerts hne hnl
  have hj := newline_count_joinNL alerts hne hnl
  simp only [countLines, alertMessage, nlCount_append]
  have hh : nlCount "🔔 **Crypto Alerts** 🔔\n\n" = 2 := by decide
  rw [hh]
  omega

/-- C6 witness: the amended line count at a concrete two-event batch — the
message has four lines. -/
theorem C6_witness : countLines (alertMessage ["a", "b"]) = ["a", "b"].length + 2 :=
  C6_amended ["a", "b"] (by decide) (by decide)

/-- C7: each snapshot contributes at most one alert line (never both a
breakout and a breakdown), and the emitted lines keep the relative order of
their source snapshots — the batch is a sublist of the per-snapshot line list
taken in input order. -/
theorem C7_spec : ∀ (l : List Crypto),
    List.Sublist (detect_patterns l)
      (l.map fun c =>
        if c.price_change_percentage_24h > 5 then breakoutLine c else breakdownLine c)
    ∧ (detect_patterns l).length ≤ l.length := by
  intro l
  induction l with
  | nil => exact ⟨List.Sublist.refl [], Nat.le_refl 0⟩
  | cons c rest ih =>
    constructor
    · simp only [detect_patterns, List.map_cons]
      split_ifs with h1 h2
      · exact ih.1.cons₂ (breakoutLine c)
      · exact ih.1.cons₂ (breakdownLine c)
      · exact ih.1.cons (breakdownLine c)
    · have hr := ih.2
      simp only [detect_patterns, List.length_cons]
      split_ifs <;> (try simp only [List.length_cons]) <;> omega

/-- C8 counterexample: a symbol containing the Markdown bold character is
embedded verbatim — the uppercased symbol `A*B` occurs as a contiguous
substring of the emitted alert line and the line contains no backslash, so
the asterisk coming from the untrusted symbol is not escaped. -/
theorem C8_counterexample :
    detect_patterns [⟨"a*b", 6⟩] = [breakoutLine ⟨"a*b", 6⟩]
    ∧ List.IsInfix (strUpper "a*b").data (breakoutLine ⟨"a*b", 6⟩).data
    ∧ '*' ∈ (strUpper "a*b").data
    ∧ '\\' ∉ (breakoutLine ⟨"a*b", 6⟩).data :=
  ⟨rfl, by decide, by decide, by decide⟩

/-- C8 amended: the formatter performs no escaping at all — every alert line
the detector emits, breakout or breakdown, contains the uppercased symbol of
one of the input snapshots verbatim, with whatever markup characters it
carries, as a contiguous character run. -/
theorem C8_amended : ∀ (l : List Crypto) (s : String), s ∈ detect_patterns l →
    ∃ c ∈ l, List.IsInfix (strUpper c.symbol).data s.data := by
  intro l
  induction l with
  | nil =>
    intro s hs
    simp [detect_patterns] at hs
  | cons c rest ih =>
    intro s hs
    simp only [detect_patterns] at hs
    split_ifs at hs with h1 h2
    · rcases List.mem_cons.mp hs with he | hm
      · subst he
        exact ⟨c, by simp, breakout_infix c⟩
      · obtain ⟨c2, hc2, hinf⟩ := ih s hm
        exact ⟨c2, List.mem_cons_of_mem c hc2, hinf⟩
    · rcases List.mem_cons.mp hs with he | hm
      · subst he
        exact ⟨c, by simp, breakdown_infix c⟩
      · obtain ⟨c2, hc2, hinf⟩ := ih s hm
        exact ⟨c2, List.mem_cons_of_mem c hc2, hinf⟩
    · obtain ⟨c2, hc2, hinf⟩ := ih s hs
      exact ⟨c2, List.mem_cons_of_mem c hc2, hinf⟩

/-- C8 witness: the amended claim applied at a concrete batch with a
breakout snapshot whose symbol carries a Markdown character — the line the
detector emits embeds the uppercased symbol verbatim. -/
theorem C8_witness :
    List.IsInfix (strUpper "a*b").data (breakoutLine ⟨"a*b", 6⟩).data := by
  obtain ⟨c, hc, hinf⟩ :=
    C8_amended [⟨"a*b", 6⟩] (breakoutLine ⟨"a*b", 6⟩) (by decide)
  have hceq : c = ⟨"a*b", 6⟩ := List.mem_singleton.mp hc
  subst hceq
  exact hinf

/-- C9: for every non-negative whole-second elapsed time t, the uptime reply
presents t as hours, minutes and seconds with h*3600 + m*60 + s = t,
0 ≤ m < 60 and 0 ≤ s < 60, each component followed by its unit letter. -/
theorem C9_spec : ∀ t : ℕ, ∃ h m s : ℕ,
    h * 3600 + m * 60 + s = t ∧ m < 60 ∧ s < 60 ∧
    uptime_command t =
      "⏰ Uptime: " ++ toString h ++ "h " ++ toString m ++ "m " ++ toString s ++ "s" := by
  intro t
  exact ⟨t / 3600, t % 3600 / 60, t % 60, by omega, by omega, by omega, rfl⟩

/-- C10: for every non-empty first argument, the price handler queries the
provider with the lowercased argument, and two argument spellings with the
same lowercasing produce identical outcomes (same query, same reply),
whatever the fixed provider response. -/
theorem C10_spec : ∀ (a : String) (rest : List String) (resp : PriceResp), a ≠ "" →
    (price (a :: rest) resp).queried = some (strLower a)
    ∧ ∀ b : String, strLower b = strLower a →
        price (b :: rest) resp = price (a :: rest) resp := by
  intro a rest resp ha
  have hlow : strLower a ≠ "" := strLower_ne_empty a ha
  constructor
  · simp only [price]
    rw [if_neg hlow]
    cases resp with
    | failure e => rfl
    | ok lookup =>
      rcases hk : lookup (strLower a) with _ | p <;> simp [hk]
  · intro b hb
    simp only [price, hb]

/-- C10 witness: the case-insensitivity claim at a concrete invocation —
`price Bitcoin` queries the provider for `bitcoin` and `price BITCOIN`
produces the identical outcome. -/
theorem C10_witness :
    (price ["Bitcoin"] (PriceResp.ok demoLookup)).queried = some (strLower "Bitcoin")
    ∧ price ["BITCOIN"] (PriceResp.ok demoLookup) = price ["Bitcoin"] (PriceResp.ok demoLookup) := by
  have h := C10_spec "Bitcoin" [] (PriceResp.ok demoLookup) (by decide)
  exact ⟨h.1, h.2 "BITCOIN" (by decide)⟩
